import Mathlib

/-!
Verification of the `django-etl` migration orchestration engine against its
specification.  The Python source (`django_etl/base.py`, `validators.py`,
`rollback.py`, `profiler.py`) is shallowly embedded: pure computations become
Lean functions, mutable state (statistics dictionaries, error lists, the
storage collaborator) is threaded explicitly, and Python exceptions become
explicit result values.  External effects with no bearing on the verified
properties (logging output, wall-clock readings, file I/O performed by the
backup writer) are modelled as opaque inputs.
-/

/-! ## Batch retry executor (`BaseTransformer.batch_process_with_retry`) -/

/-- The `results` dictionary built by `batch_process_with_retry`
(`base.py`, lines 424-430): five integer counters, all starting at zero. -/
structure BatchResults where
  total_batches : Nat
  successful_batches : Nat
  failed_batches : Nat
  retried_batches : Nat
  total_records : Nat
deriving DecidableEq, Repr

/-- The initial `results` dictionary: every counter is zero. -/
def initResults : BatchResults :=
  { total_batches := 0, successful_batches := 0, failed_batches := 0
    retried_batches := 0, total_records := 0 }

/-- One batch's retry loop, `BaseTransformer._process_batch_with_retry`
(`base.py`, lines 448-465).  `fails a` models whether `process_func(batch)`
raises on attempt number `a` (the behaviour of the caller-supplied function is
the only free input).  `attempt` is the current attempt index, and
`remaining = max_retries - attempt` counts the attempts still allowed after
the current one, so the loop body runs at most `max_retries + 1` times,
exactly like `for attempt in range(max_retries + 1)`.  On a successful
attempt the source increments `successful_batches`, adds `len(batch)` to
`total_records`, increments `retried_batches` when `attempt > 0`, and breaks;
when an attempt fails with `attempt < max_retries` (here `remaining > 0`) it
retries, and when the final attempt fails it increments `failed_batches`. -/
def attemptLoop (fails : Nat → Bool) (batchLen : Nat) :
    Nat → Nat → BatchResults → BatchResults
  | attempt, remaining, r =>
    if fails attempt then
      match remaining with
      | 0 => { r with failed_batches := r.failed_batches + 1 }
      | n + 1 => attemptLoop fails batchLen (attempt + 1) n r
    else
      { r with
          successful_batches := r.successful_batches + 1
          total_records := r.total_records + batchLen
          retried_batches := r.retried_batches + (if 0 < attempt then 1 else 0) }

/-- Ghost observer of `_process_batch_with_retry`: how many times the retry
loop invokes `process_func(batch)`.  Each loop iteration performs exactly one
invocation (inside the profiled scope), whether it succeeds or raises. -/
def attemptCalls (fails : Nat → Bool) : Nat → Nat → Nat
  | attempt, remaining =>
    if fails attempt then
      match remaining with
      | 0 => 1
      | n + 1 => 1 + attemptCalls fails (attempt + 1) n
    else 1

/-- Ghost observer of `_process_batch_with_retry`: how many times the retry
loop calls `time.sleep(retry_delay)`.  The source sleeps exactly once after
every failed attempt that still has a retry left (`attempt < max_retries`),
and the delay is the constant `retry_delay` each time. -/
def attemptSleeps (fails : Nat → Bool) : Nat → Nat → Nat
  | attempt, remaining =>
    if fails attempt then
      match remaining with
      | 0 => 0
      | n + 1 => 1 + attemptSleeps fails (attempt + 1) n
    else 0

/-- Ghost observer of `_process_batch_with_retry`: how many times the retry
loop calls `self.log_error` (once, exactly when the final attempt fails). -/
def attemptLogErrors (fails : Nat → Bool) : Nat → Nat → Nat
  | attempt, remaining =>
    if fails attempt then
      match remaining with
      | 0 => 1
      | n + 1 => attemptLogErrors fails (attempt + 1) n
    else 0

/-- The attempt number on which the retry loop first succeeds, if any
attempt within the allowed budget succeeds. -/
def firstSuccess (fails : Nat → Bool) : Nat → Nat → Option Nat
  | attempt, remaining =>
    if fails attempt then
      match remaining with
      | 0 => none
      | n + 1 => firstSuccess fails (attempt + 1) n
    else some attempt

/-- The draining loop of `BaseTransformer.batch_process_with_retry`
(`base.py`, lines 432-444): items are appended one at a time to the current
`batch`; as soon as `len(batch) >= batch_size` the batch is processed with
retry and `total_batches` is incremented; after the source is exhausted a
nonempty leftover batch is processed the same way.  `fails i a` models
whether `process_func` raises on attempt `a` of the `i`-th processed batch
(`i` counts batches in processing order, which is `total_batches` at the
moment the batch is handed to `_process_batch_with_retry`). -/
def batchLoop (fails : Nat → Nat → Bool) (max_retries batch_size : Nat) :
    List α → List α → BatchResults → BatchResults
  | [], batch, r =>
    if batch.isEmpty then r
    else
      let r1 := attemptLoop (fails r.total_batches) batch.length 0 max_retries r
      { r1 with total_batches := r1.total_batches + 1 }
  | item :: rest, batch, r =>
    let batch1 := batch ++ [item]
    if batch_size ≤ batch1.length then
      let r1 := attemptLoop (fails r.total_batches) batch1.length 0 max_retries r
      batchLoop fails max_retries batch_size rest []
        { r1 with total_batches := r1.total_batches + 1 }
    else
      batchLoop fails max_retries batch_size rest batch1 r

/-- `BaseTransformer.batch_process_with_retry` (`base.py`, lines 408-446):
drain `source` into batches of `batch_size` and process each with the retry
loop, starting from the all-zero counters. -/
def batch_process_with_retry (fails : Nat → Nat → Bool) (source : List α)
    (batch_size max_retries : Nat) : BatchResults :=
  batchLoop fails max_retries batch_size source [] initResults

/-- The batches that the draining loop of `batch_process_with_retry` hands to
`_process_batch_with_retry`, carved out by the same accumulator discipline
(close the batch as soon as its length reaches `batch_size`, emit a nonempty
leftover at the end). -/
def chunksAcc (batch_size : Nat) : List α → List α → List (List α)
  | batch, [] => if batch.isEmpty then [] else [batch]
  | batch, item :: rest =>
    let batch1 := batch ++ [item]
    if batch_size ≤ batch1.length then batch1 :: chunksAcc batch_size [] rest
    else chunksAcc batch_size batch1 rest

/-- Processing an explicit list of batches in order: the same per-batch work
as `batchLoop`, with the batch boundaries already drawn.  `batchLoop` is
proved equal to this composed with `chunksAcc`. -/
def runBatches (fails : Nat → Nat → Bool) (max_retries : Nat) :
    List (List α) → BatchResults → BatchResults
  | [], r => r
  | c :: cs, r =>
    let r1 := attemptLoop (fails r.total_batches) c.length 0 max_retries r
    runBatches fails max_retries cs { r1 with total_batches := r1.total_batches + 1 }

/-- Sum, over the batches of a list starting at batch index `idx`, of the
sizes of exactly those batches on which the retry loop eventually succeeds
(some attempt within the budget does not fail). -/
def successRecords (fails : Nat → Nat → Bool) (max_retries : Nat) :
    Nat → List (List α) → Nat
  | _, [] => 0
  | idx, c :: cs =>
    (if (firstSuccess (fails idx) 0 max_retries).isSome then c.length else 0) +
      successRecords fails max_retries (idx + 1) cs




/-! ## Validation engine (`django_etl/validators.py`) -/

/-- `ValidationSeverity` (`validators.py`, lines 13-16). -/
inductive Severity where
  | error
  | warning
  | info
deriving DecidableEq, Repr

/-- `ValidationResult` (`validators.py`, lines 19-26).  `value` is the record's
value for the rule's field, `none` when the field is missing (Python
`record.get(field)` returns `None`). -/
structure ValidationResult (V : Type) where
  field : String
  value : Option V
  is_valid : Bool
  severity : Severity
  message : String
  rule_name : String
deriving DecidableEq, Repr

/-- A registered rule, the dictionary appended by `DataQualityValidator.add_rule`
(`validators.py`, lines 36-44).  `rule_func` models the caller-supplied
predicate applied to the field value: `Except.ok b` when the predicate returns
`b`, `Except.error msg` when it raises an exception whose string form is
`msg`. -/
structure ValidationRule (V : Type) where
  field : String
  rule_func : Option V → Except String Bool
  severity : Severity
  message : String
  name : String

/-- Python `record.get(field)`: the value stored under `field`, or `none`
when the field is missing.  Records are finite field-to-value mappings,
embedded as association lists. -/
def recordGet (record : List (String × V)) (field : String) : Option V :=
  (record.find? (fun p => p.fst == field)).map Prod.snd

/-- The body of the per-rule loop of `DataQualityValidator.validate_record`
(`validators.py`, lines 50-75): evaluate the predicate on the field value; a
normal return produces a result carrying the returned validity, the rule's
severity and its message (or the default message when the registered message
is the empty string, which is falsy in Python); a raised exception is caught
and converted into an invalid ERROR-severity result whose message embeds the
exception text. -/
def evalRule (record : List (String × V)) (rule : ValidationRule V) :
    ValidationResult V :=
  let value := recordGet record rule.field
  match rule.rule_func value with
  | Except.ok b =>
    { field := rule.field, value := value, is_valid := b
      severity := rule.severity
      message := if rule.message = "" then "Validation failed for " ++ rule.field
                 else rule.message
      rule_name := rule.name }
  | Except.error e =>
    { field := rule.field, value := value, is_valid := false
      severity := Severity.error
      message := "Validation error: " ++ e
      rule_name := rule.name }

/-- `DataQualityValidator.validate_record` (`validators.py`, lines 46-77):
one result per registered rule, in registration order. -/
def validate_record (rules : List (ValidationRule V))
    (record : List (String × V)) : List (ValidationResult V) :=
  rules.map (evalRule record)

/-- The `has_errors` test of `validate_batch` (`validators.py`, line 94). -/
def hasErrors (record_results : List (ValidationResult V)) : Bool :=
  record_results.any (fun r => r.severity == Severity.error && !r.is_valid)

/-- The `has_warnings` test of `validate_batch` (`validators.py`, line 95). -/
def hasWarnings (record_results : List (ValidationResult V)) : Bool :=
  record_results.any (fun r => r.severity == Severity.warning && !r.is_valid)

/-- The summary dictionary built by `validate_batch`
(`validators.py`, lines 82-88). -/
structure BatchValidationSummary (V : Type) where
  total_records : Nat
  valid_records : Nat
  records_with_errors : Nat
  records_with_warnings : Nat
  validation_results : List (ValidationResult V)
deriving DecidableEq, Repr

/-- The per-record body of the loop of `validate_batch`
(`validators.py`, lines 90-102): validate the record, extend the collected
results, and bump exactly one of the three classification counters
(`records_with_errors` when any ERROR-severity result is invalid, otherwise
`records_with_warnings` when any WARNING-severity result is invalid,
otherwise `valid_records`). -/
def validateStep (rules : List (ValidationRule V))
    (s : BatchValidationSummary V) (record : List (String × V)) :
    BatchValidationSummary V :=
  let record_results := validate_record rules record
  let s1 := { s with validation_results := s.validation_results ++ record_results }
  if hasErrors record_results then
    { s1 with records_with_errors := s1.records_with_errors + 1 }
  else if hasWarnings record_results then
    { s1 with records_with_warnings := s1.records_with_warnings + 1 }
  else
    { s1 with valid_records := s1.valid_records + 1 }

/-- `DataQualityValidator.validate_batch` (`validators.py`, lines 79-105):
`total_records` is set to `len(records)` up front, the three classification
counters start at zero, and the loop classifies each record in turn. -/
def validate_batch (rules : List (ValidationRule V))
    (records : List (List (String × V))) : BatchValidationSummary V :=
  records.foldl (validateStep rules)
    { total_records := records.length, valid_records := 0
      records_with_errors := 0, records_with_warnings := 0
      validation_results := [] }

/-! ## Rollback manager (`django_etl/rollback.py`) -/

/-- Python exceptions that `ETLRollbackManager.rollback_migration` can
surface: `ValueError(msg)` raised explicitly, and the `AttributeError` raised
by calling `.error(...)` on `self.logger`, which `__init__`
(`rollback.py`, line 33) sets to `None` and nothing in the repository ever
reassigns. -/
inductive PyExc where
  | valueError (msg : String)
  | attributeError
deriving DecidableEq, Repr

/-- `MigrationSnapshot` (`rollback.py`, lines 15-24), timestamps and free-form
metadata omitted as no verified property reads them. -/
structure MigrationSnapshot where
  migration_id : String
  transformer_name : String
  affected_tables : List String
  record_counts : List (String × Nat)
  backup_location : Option String
deriving DecidableEq, Repr

/-- `ETLRollbackManager._find_snapshot` (`rollback.py`, lines 117-122):
first snapshot whose `migration_id` matches, else `None`. -/
def find_snapshot (snapshots : List MigrationSnapshot) (migration_id : String) :
    Option MigrationSnapshot :=
  snapshots.find? (fun s => s.migration_id == migration_id)

/-- `ETLRollbackManager._restore_from_backup` (`rollback.py`, lines 95-109):
raises `ValueError` when the snapshot has no backup location; otherwise it
reads the backup artifact, re-saves every serialized object (storage-layer
work external to the verified properties, modelled as succeeding) and returns
`True`.  The Python return value is `Option Bool` because a sibling strategy
returns `None`. -/
def restore_from_backup (snapshot : MigrationSnapshot) :
    Except PyExc (Option Bool) :=
  match snapshot.backup_location with
  | none => Except.error (PyExc.valueError "No backup location specified")
  | some _ => Except.ok (some true)

/-- `ETLRollbackManager._delete_new_records` (`rollback.py`, lines 111-115):
the body is `pass`, so the call returns Python `None`. -/
def delete_new_records (_snapshot : MigrationSnapshot) :
    Except PyExc (Option Bool) :=
  Except.ok none

/-- `ETLRollbackManager.rollback_migration` (`rollback.py`, lines 76-93).
A missing snapshot raises `ValueError` before the `try` block, so it reaches
the caller.  Inside the `try` block the strategy is dispatched; an unknown
strategy raises `ValueError`, but the blanket `except Exception` catches it
(and any strategy failure) and runs `self.logger.error(...)` followed by
`return False`; since `self.logger` is `None`, that handler itself raises
`AttributeError` (were a logger present, the call would return `False`).
`with transaction.atomic()` only scopes storage effects and is transparent to
exception flow. -/
def rollback_migration (logger : Option Unit)
    (snapshots : List MigrationSnapshot) (migration_id strategy : String) :
    Except PyExc (Option Bool) :=
  match find_snapshot snapshots migration_id with
  | none =>
    Except.error (PyExc.valueError ("No snapshot found for migration " ++ migration_id))
  | some snapshot =>
    let body :=
      if strategy = "restore_backup" then restore_from_backup snapshot
      else if strategy = "delete_new_records" then delete_new_records snapshot
      else Except.error (PyExc.valueError ("Unknown rollback strategy: " ++ strategy))
    match body with
    | Except.ok v => Except.ok v
    | Except.error _ =>
      match logger with
      | some _ => Except.ok (some false)
      | none => Except.error PyExc.attributeError

/-! ## Profiler (`django_etl/profiler.py`) -/

/-- The outcome of a Python computation: a returned value or a raised
exception (carried as its string form). -/
inductive PyResult (α : Type) where
  | ok (value : α)
  | raised (exc : String)
deriving DecidableEq, Repr

/-- The sample dictionary appended by `ETLProfiler.profile_operation`
(`profiler.py`, lines 38-44).  Times and memory readings are integer
measurements supplied by the environment. -/
structure ProfSample where
  duration : Int
  memory_start : Int
  memory_end : Int
  memory_delta : Int
  timestamp : Int
deriving DecidableEq, Repr

/-- The profiler's `metrics` dictionary: a `defaultdict(list)` mapping each
operation name to its append-only list of samples. -/
structure ProfilerState where
  metrics : String → List ProfSample

/-- `ETLProfiler.profile_operation` (`profiler.py`, lines 23-46), a
`@contextmanager` whose `yield` sits in a `try` with the sample recording in
the `finally` block.  `start_time`/`start_memory` are read on entry; `body`
is the work performed inside the `with` block — it may itself touch the
profiler (nested scopes) and reports the end-of-scope time and memory
readings; whatever `body` does (normal return or raised exception), the
`finally` block appends exactly one sample to `metrics[operation_name]` and
the body's outcome is passed through unchanged. -/
def profile_operation (operation_name : String) (start_time start_memory : Int)
    (body : ProfilerState → PyResult α × ProfilerState × Int × Int)
    (prof : ProfilerState) : PyResult α × ProfilerState :=
  let out := body prof
  let res := out.1
  let prof1 := out.2.1
  let end_time := out.2.2.1
  let end_memory := out.2.2.2
  let sample : ProfSample :=
    { duration := end_time - start_time, memory_start := start_memory
      memory_end := end_memory, memory_delta := end_memory - start_memory
      timestamp := start_time }
  (res,
   { metrics := fun k =>
       if k = operation_name then prof1.metrics k ++ [sample]
       else prof1.metrics k })

/-! ## Transformer lifecycle (`django_etl/base.py`) -/

/-- The storage collaborator reduced to what the verified properties read:
the record count of each collection. -/
abbrev Storage : Type := String → Nat

/-- A storage with no records in any collection. -/
def emptyStorage : Storage := fun _ => 0

/-- The transactional slice of `BaseTransformer.safe_run`
(`base.py`, lines 71-99).  `run` is the domain `run()` method: it reads and
writes storage and either returns a value or raises; in Python autocommit
mode every write it performs is persisted as soon as it is issued, so `run`
returns the storage as of its return or as of the raise.  `safe_run` with
`dry_run=True` calls `run()` with no transaction at all ("Run without
transaction for dry run", line 74), so the storage `run` produced is kept as
is — on success and on exception alike.  With `dry_run=False` the call is
wrapped in `transaction.atomic()`, so an exception restores the storage to
its state at entry.  On exception the message is appended to `self.errors`
(line 84) and the exception re-raised; the snapshot/rollback machinery is
omitted here because it is guarded by `enable_rollback and not dry_run` and
plays no part in the verified dry-run property. -/
def safe_run (run : Storage → PyResult α × Storage) (dry_run : Bool)
    (errors : List String) (st : Storage) : PyResult α × Storage × List String :=
  if dry_run then
    match run st with
    | (PyResult.ok a, st1) => (PyResult.ok a, st1, errors)
    | (PyResult.raised e, st1) => (PyResult.raised e, st1, errors ++ [e])
  else
    match run st with
    | (PyResult.ok a, st1) => (PyResult.ok a, st1, errors)
    | (PyResult.raised e, _) => (PyResult.raised e, st, errors ++ [e])

/-- A domain `run()` that bulk-inserts one record into the `patients`
collection and returns normally — the smallest storage-writing transformer
body. -/
def insertOnePatient : Storage → PyResult Unit × Storage :=
  fun st =>
    (PyResult.ok (),
     fun k => if k = "patients" then st k + 1 else st k)

/-- The transformer's `stats` dictionary, a `defaultdict(int)`
(`base.py`, line 27): every key reads 0 until written. -/
abbrev Stats : Type := String → Nat

/-- A fresh `defaultdict(int)`: every counter reads zero. -/
def freshStats : Stats := fun _ => 0

/-- Python `stats[key] = value`. -/
def setStat (key : String) (value : Nat) (stats : Stats) : Stats :=
  fun k => if k = key then value else stats k

/-- The `stats` effect of `BaseTransformer.extract_data`
(`base.py`, line 156): `self.stats["total_extracted"] = total_count`, an
assignment of the freshly counted queryset size, not an increment. -/
def extract_data_stats (total_count : Nat) (stats : Stats) : Stats :=
  setStat "total_extracted" total_count stats

/-- The `stats` effect of `BaseTransformer.get_or_create_with_logging`
(`base.py`, lines 369-372): increment `created` when a row was created,
`existing` otherwise. -/
def get_or_create_stats (created : Bool) (stats : Stats) : Stats :=
  if created then setStat "created" (stats "created" + 1) stats
  else setStat "existing" (stats "existing" + 1) stats

/-- The `created_count` accumulated by the batch loop of
`bulk_create_with_logging` (`base.py`, lines 204-213): each batch either
bulk-creates and adds `len(batch)` or raises (modelled by `bulkFails` on the
batch index), is logged, and adds nothing. -/
def countCreated (bulkFails : Nat → Bool) : Nat → List (List α) → Nat
  | _, [] => 0
  | idx, c :: cs =>
    (if bulkFails idx then 0 else c.length) + countCreated bulkFails (idx + 1) cs

/-- `BaseTransformer.bulk_create_with_logging` (`base.py`, lines 183-217)
restricted to its return value and `stats` effect: an empty instance list
returns 0 without touching `stats`; otherwise the instances are sliced into
consecutive `batch_size`-sized batches (the same carving `chunksAcc`
performs for `batch_size ≥ 1`), the created total is accumulated, and
`self.stats["created"] = created_count` assigns — not increments — the
counter (line 215). -/
def bulk_create_with_logging (bulkFails : Nat → Bool) (instances : List α)
    (batch_size : Nat) (stats : Stats) : Nat × Stats :=
  if instances.isEmpty then (0, stats)
  else
    let created_count := countCreated bulkFails 0 (chunksAcc batch_size [] instances)
    (created_count, setStat "created" created_count stats)

/-- `BaseTransformer.log_error` (`base.py`, lines 129-132): append the
message to `self.errors`. -/
def log_error (message : String) (errors : List String) : List String :=
  errors ++ [message]

/-- The `status` field computed by `BaseTransformer.get_migration_summary`
(`base.py`, line 499): `'completed' if not self.errors else 'failed'`. -/
def migration_status (errors : List String) : String :=
  if errors.isEmpty then "completed" else "failed"

/-- A registered rule whose predicate always raises: severity WARNING on
registration, empty custom message. -/
def boomRule : ValidationRule Nat :=
  { field := "age", rule_func := fun _ => Except.error "boom"
    severity := Severity.warning, message := "", name := "boom_rule" }

/-- A snapshot for migration `m1` with a recorded backup artifact. -/
def demoSnapshot : MigrationSnapshot :=
  { migration_id := "m1", transformer_name := "DemoTransformer"
    affected_tables := ["patients"], record_counts := [("patients", 5)]
    backup_location := some "/tmp/etl_backups/backup_m1.json" }

/-- A domain `run()` that writes nothing and returns normally. -/
def noopRun : Storage → PyResult Unit × Storage :=
  fun st => (PyResult.ok (), st)

/-! ## Lemmas about the retry loop -/

/-- The retry loop's full effect on the counters, by whether some attempt in
the budget succeeds: a success adds one successful batch, the batch's length
to `total_records`, and one retried batch when the succeeding attempt is not
the first; exhausting the budget adds one failed batch. -/
theorem attemptLoop_eq (fails : Nat → Bool) (batchLen : Nat) :
    ∀ (remaining attempt : Nat) (r : BatchResults),
      attemptLoop fails batchLen attempt remaining r =
        match firstSuccess fails attempt remaining with
        | some a =>
          { r with
              successful_batches := r.successful_batches + 1
              total_records := r.total_records + batchLen
              retried_batches := r.retried_batches + (if 0 < a then 1 else 0) }
        | none => { r with failed_batches := r.failed_batches + 1 } := by
  intro remaining
  induction remaining with
  | zero =>
    intro attempt r
    by_cases hf : fails attempt <;> simp [attemptLoop, firstSuccess, hf]
  | succ n ih =>
    intro attempt r
    by_cases hf : fails attempt <;> simp [attemptLoop, firstSuccess, hf]
    exact ih (attempt + 1) r

/-- The retry loop never touches `total_batches`. -/
theorem attemptLoop_total_batches (fails : Nat → Bool) (batchLen : Nat)
    (remaining attempt : Nat) (r : BatchResults) :
    (attemptLoop fails batchLen attempt remaining r).total_batches =
      r.total_batches := by
  rw [attemptLoop_eq]
  cases firstSuccess fails attempt remaining <;> rfl

/-- The retry loop adds exactly one batch to the combined
successful-plus-failed tally. -/
theorem attemptLoop_successful_add_failed (fails : Nat → Bool) (batchLen : Nat)
    (remaining attempt : Nat) (r : BatchResults) :
    (attemptLoop fails batchLen attempt remaining r).successful_batches +
      (attemptLoop fails batchLen attempt remaining r).failed_batches =
      r.successful_batches + r.failed_batches + 1 := by
  rw [attemptLoop_eq]
  cases firstSuccess fails attempt remaining <;> simp <;> omega

/-- The retry loop adds the batch's length to `total_records` exactly when
some attempt in the budget succeeds. -/
theorem attemptLoop_total_records (fails : Nat → Bool) (batchLen : Nat)
    (remaining attempt : Nat) (r : BatchResults) :
    (attemptLoop fails batchLen attempt remaining r).total_records =
      r.total_records +
        (if (firstSuccess fails attempt remaining).isSome then batchLen else 0) := by
  rw [attemptLoop_eq]
  cases firstSuccess fails attempt remaining <;> simp

/-! ## Lemmas about the draining loop -/

/-- The draining loop equals per-batch processing of the explicitly carved
chunk list: `batchLoop` and `chunksAcc` close batches under exactly the same
condition. -/
theorem batchLoop_eq_runBatches (fails : Nat → Nat → Bool)
    (max_retries batch_size : Nat) :
    ∀ (rest batch : List α) (r : BatchResults),
      batchLoop fails max_retries batch_size rest batch r =
        runBatches fails max_retries (chunksAcc batch_size batch rest) r := by
  intro rest
  induction rest with
  | nil =>
    intro batch r
    by_cases hb : batch.isEmpty <;>
      simp [batchLoop, chunksAcc, runBatches, hb]
  | cons item rest ih =>
    intro batch r
    by_cases hle : batch_size ≤ batch.length + 1 <;>
      simp [batchLoop, chunksAcc, runBatches, hle, ih]

/-- How many chunks the carving produces: exactly `⌈(pending + rest)/b⌉`,
provided the pending batch is still open (its length is below `b`). -/
theorem chunksAcc_length (batch_size : Nat) (hb : 1 ≤ batch_size) :
    ∀ (rest batch : List α), batch.length < batch_size →
      (chunksAcc batch_size batch rest).length =
        (batch.length + rest.length + batch_size - 1) / batch_size := by
  intro rest
  induction rest with
  | nil =>
    intro batch hlt
    by_cases hbe : batch.isEmpty
    · have h0 : batch.length = 0 := by
        cases batch with
        | nil => rfl
        | cons x xs => simp at hbe
      have hlen : (chunksAcc batch_size batch ([] : List α)).length = 0 := by
        simp [chunksAcc, hbe]
      rw [hlen, h0]
      simp only [List.length_nil]
      exact (Nat.div_eq_of_lt (by omega)).symm
    · have h1 : 1 ≤ batch.length := by
        cases batch with
        | nil => simp at hbe
        | cons x xs => simp
      have hlen : (chunksAcc batch_size batch ([] : List α)).length = 1 := by
        simp [chunksAcc, hbe]
      have hnum : batch.length + List.length ([] : List α) + batch_size - 1 =
          (batch.length - 1) + batch_size := by
        simp only [List.length_nil]
        omega
      rw [hlen, hnum, Nat.add_div_right _ (by omega),
        Nat.div_eq_of_lt (show batch.length - 1 < batch_size by omega)]
  | cons item rest ih =>
    intro batch hlt
    by_cases hle : batch_size ≤ batch.length + 1
    · have hstep : chunksAcc batch_size batch (item :: rest) =
          (batch ++ [item]) :: chunksAcc batch_size [] rest := by
        simp [chunksAcc, hle]
      have hrec : (chunksAcc batch_size ([] : List α) rest).length =
          (rest.length + batch_size - 1) / batch_size := by
        have := ih ([] : List α) (by simp only [List.length_nil]; omega)
        simpa using this
      have hnum : batch.length + (item :: rest).length + batch_size - 1 =
          (rest.length + batch_size - 1) + batch_size := by
        simp only [List.length_cons]
        omega
      rw [hstep, List.length_cons, hrec, hnum,
        Nat.add_div_right _ (show 0 < batch_size by omega)]
    · have hstep : chunksAcc batch_size batch (item :: rest) =
          chunksAcc batch_size (batch ++ [item]) rest := by
        simp [chunksAcc, hle]
      have hrec := ih (batch ++ [item])
        (by simp only [List.length_append, List.length_cons, List.length_nil]; omega)
      rw [hstep, hrec]
      congr 1
      simp only [List.length_cons, List.length_append, List.length_nil]
      omega

/-- Chunking loses no records: the chunk sizes sum to the input length. -/
theorem chunksAcc_sum_length (batch_size : Nat) :
    ∀ (rest batch : List α),
      ((chunksAcc batch_size batch rest).map List.length).sum =
        batch.length + rest.length := by
  intro rest
  induction rest with
  | nil =>
    intro batch
    by_cases hbe : batch.isEmpty
    · have h0 : batch.length = 0 := by
        cases batch with
        | nil => rfl
        | cons x xs => simp at hbe
      simp [chunksAcc, hbe, h0]
    · simp [chunksAcc, hbe]
  | cons item rest ih =>
    intro batch
    by_cases hle : batch_size ≤ batch.length + 1 <;>
      simp [chunksAcc, hle, ih] <;> omega

/-- Per-batch processing advances `total_batches` by the number of batches. -/
theorem runBatches_total_batches (fails : Nat → Nat → Bool) (max_retries : Nat) :
    ∀ (cs : List (List α)) (r : BatchResults),
      (runBatches fails max_retries cs r).total_batches =
        r.total_batches + cs.length := by
  intro cs
  induction cs with
  | nil => intro r; simp [runBatches]
  | cons c cs ih =>
    intro r
    rw [runBatches, ih]
    simp [attemptLoop_total_batches]
    omega

/-- Per-batch processing counts every batch exactly once as successful or
failed. -/
theorem runBatches_successful_add_failed (fails : Nat → Nat → Bool)
    (max_retries : Nat) :
    ∀ (cs : List (List α)) (r : BatchResults),
      (runBatches fails max_retries cs r).successful_batches +
        (runBatches fails max_retries cs r).failed_batches =
        r.successful_batches + r.failed_batches + cs.length := by
  intro cs
  induction cs with
  | nil => intro r; simp [runBatches]
  | cons c cs ih =>
    intro r
    rw [runBatches, ih]
    have h := attemptLoop_successful_add_failed (fails r.total_batches) c.length
      max_retries 0 r
    simp only [List.length_cons]
    omega

/-- Per-batch processing adds to `total_records` exactly the sizes of the
batches that eventually succeed. -/
theorem runBatches_total_records (fails : Nat → Nat → Bool) (max_retries : Nat) :
    ∀ (cs : List (List α)) (r : BatchResults),
      (runBatches fails max_retries cs r).total_records =
        r.total_records + successRecords fails max_retries r.total_batches cs := by
  intro cs
  induction cs with
  | nil => intro r; simp [runBatches, successRecords]
  | cons c cs ih =>
    intro r
    rw [runBatches, ih]
    simp only [successRecords, attemptLoop_total_batches,
      attemptLoop_total_records]
    omega

/-- The successfully processed records are at most all chunked records. -/
theorem successRecords_le_sum (fails : Nat → Nat → Bool) (max_retries : Nat) :
    ∀ (cs : List (List α)) (idx : Nat),
      successRecords fails max_retries idx cs ≤ (cs.map List.length).sum := by
  intro cs
  induction cs with
  | nil => intro idx; simp [successRecords]
  | cons c cs ih =>
    intro idx
    rw [successRecords]
    simp only [List.map_cons, List.sum_cons]
    have := ih (idx + 1)
    by_cases h : (firstSuccess (fails idx) 0 max_retries).isSome <;>
      simp [h] <;> omega

/-! ## Claim C2 -/

/-- C2: for every finite source of length `n` and batch size `b ≥ 1`,
`batch_process_with_retry` drains exactly `⌈n/b⌉` batches, every batch is
counted exactly once as successful or failed
(`successful_batches + failed_batches = total_batches`), and an empty source
yields the all-zero outcome rather than an error. -/
theorem batch_retry_batch_counts (fails : Nat → Nat → Bool) (source : List α)
    (batch_size max_retries : Nat) (hb : 1 ≤ batch_size) :
    (batch_process_with_retry fails source batch_size max_retries).total_batches =
      (source.length + batch_size - 1) / batch_size ∧
    (batch_process_with_retry fails source batch_size max_retries).successful_batches +
      (batch_process_with_retry fails source batch_size max_retries).failed_batches =
      (batch_process_with_retry fails source batch_size max_retries).total_batches ∧
    batch_process_with_retry fails ([] : List α) batch_size max_retries =
      initResults := by
  have hkey : batch_process_with_retry fails source batch_size max_retries =
      runBatches fails max_retries (chunksAcc batch_size [] source) initResults :=
    batchLoop_eq_runBatches fails max_retries batch_size source [] initResults
  have hchunks : (chunksAcc batch_size ([] : List α) source).length =
      (source.length + batch_size - 1) / batch_size := by
    have h := chunksAcc_length batch_size hb source ([] : List α)
      (by simp only [List.length_nil]; omega)
    simpa using h
  refine ⟨?_, ?_, ?_⟩
  · rw [hkey, runBatches_total_batches, hchunks]
    simp [initResults]
  · rw [hkey, runBatches_successful_add_failed, runBatches_total_batches]
    simp [initResults]
  · rfl

/-- Witness: three records in batches of two give two batches, both
successful, and the empty source gives the zero outcome. -/
theorem batch_retry_batch_counts_witness :
    (batch_process_with_retry (fun _ _ => false) [10, 20, 30] 2 1).total_batches =
      ([10, 20, 30].length + 2 - 1) / 2 ∧
    (batch_process_with_retry (fun _ _ => false) [10, 20, 30] 2 1).successful_batches +
      (batch_process_with_retry (fun _ _ => false) [10, 20, 30] 2 1).failed_batches =
      (batch_process_with_retry (fun _ _ => false) [10, 20, 30] 2 1).total_batches ∧
    batch_process_with_retry (fun _ _ => false) ([] : List Nat) 2 1 = initResults :=
  batch_retry_batch_counts (fun _ _ => false) [10, 20, 30] 2 1 (by decide)

/-! ## Claim C3 -/

/-- C3 counterexample: a one-record source whose only batch exhausts every
attempt is drained (`total_batches = 1`) and counted failed, yet contributes
nothing to `total_records`, which stays 0 instead of equalling the 1 record
drained — so `total_records` is not the sum of the sizes of all drained
batches. -/
theorem total_records_omits_failed_batches :
    (batch_process_with_retry (fun _ _ => true) [7] 1 0).total_batches = 1 ∧
    (batch_process_with_retry (fun _ _ => true) [7] 1 0).failed_batches = 1 ∧
    (batch_process_with_retry (fun _ _ => true) [7] 1 0).total_records = 0 ∧
    ([7] : List Nat).length = 1 := by decide

/-- C3 amended: `total_records` equals the sum of the sizes of exactly the
batches that were eventually processed successfully; batches that exhaust
every retry attempt are excluded, so `total_records` never exceeds the number
of records drained from the source. -/
theorem total_records_counts_successful_batches (fails : Nat → Nat → Bool)
    (source : List α) (batch_size max_retries : Nat) (_hb : 1 ≤ batch_size) :
    (batch_process_with_retry fails source batch_size max_retries).total_records =
      successRecords fails max_retries 0 (chunksAcc batch_size [] source) ∧
    (batch_process_with_retry fails source batch_size max_retries).total_records ≤
      source.length := by
  have hkey : batch_process_with_retry fails source batch_size max_retries =
      runBatches fails max_retries (chunksAcc batch_size [] source) initResults :=
    batchLoop_eq_runBatches fails max_retries batch_size source [] initResults
  have hrec : (batch_process_with_retry fails source batch_size max_retries).total_records =
      successRecords fails max_retries 0 (chunksAcc batch_size [] source) := by
    rw [hkey, runBatches_total_records]
    simp [initResults]
  refine ⟨hrec, ?_⟩
  rw [hrec]
  have hle := successRecords_le_sum fails max_retries
    (chunksAcc batch_size ([] : List α) source) 0
  have hsum := chunksAcc_sum_length batch_size source ([] : List α)
  simp only [List.length_nil, Nat.zero_add] at hsum
  omega

/-- Witness: the first batch fails both attempts, the second succeeds, so
only the second batch's single record is counted. -/
theorem total_records_counts_successful_batches_witness :
    (batch_process_with_retry (fun i _ => i == 0) [1, 2, 3] 2 1).total_records =
      successRecords (fun i _ => i == 0) 1 0 (chunksAcc 2 [] [1, 2, 3]) ∧
    (batch_process_with_retry (fun i _ => i == 0) [1, 2, 3] 2 1).total_records ≤
      [1, 2, 3].length :=
  total_records_counts_successful_batches (fun i _ => i == 0) [1, 2, 3] 2 1
    (by decide)

/-! ## Claim C4 -/

/-- When the processing function fails on attempts `attempt ... attempt+k-1`
and succeeds on attempt `attempt+k`, within a budget of at least `k` further
attempts, the retry loop's first success lands on attempt `attempt + k`. -/
theorem firstSuccess_of_fail_window (fails : Nat → Bool) :
    ∀ (k attempt remaining : Nat),
      (∀ j, j < k → fails (attempt + j) = true) →
      fails (attempt + k) = false → k ≤ remaining →
      firstSuccess fails attempt remaining = some (attempt + k) := by
  intro k
  induction k with
  | zero =>
    intro attempt remaining _ hs _
    simp only [Nat.add_zero] at hs
    rw [firstSuccess.eq_def]
    simp [hs]
  | succ k ih =>
    intro attempt remaining hf hs hk
    have h0 : fails attempt = true := by simpa using hf 0 (Nat.succ_pos k)
    rw [firstSuccess.eq_def]
    simp only [h0, if_true]
    cases remaining with
    | zero => omega
    | succ n =>
      have hrec := ih (attempt + 1) n
        (fun j hj => by
          rw [show attempt + 1 + j = attempt + (j + 1) from by omega]
          exact hf (j + 1) (by omega))
        (by
          rw [show attempt + 1 + k = attempt + (k + 1) from by omega]
          exact hs)
        (by omega)
      show firstSuccess fails (attempt + 1) n = some (attempt + (k + 1))
      rw [hrec]
      congr 1
      omega

/-- Under the same failure window, the loop invokes the processing function
exactly `k + 1` times. -/
theorem attemptCalls_of_fail_window (fails : Nat → Bool) :
    ∀ (k attempt remaining : Nat),
      (∀ j, j < k → fails (attempt + j) = true) →
      fails (attempt + k) = false → k ≤ remaining →
      attemptCalls fails attempt remaining = k + 1 := by
  intro k
  induction k with
  | zero =>
    intro attempt remaining _ hs _
    simp only [Nat.add_zero] at hs
    rw [attemptCalls.eq_def]
    simp [hs]
  | succ k ih =>
    intro attempt remaining hf hs hk
    have h0 : fails attempt = true := by simpa using hf 0 (Nat.succ_pos k)
    rw [attemptCalls.eq_def]
    simp only [h0, if_true]
    cases remaining with
    | zero => omega
    | succ n =>
      have hrec := ih (attempt + 1) n
        (fun j hj => by
          rw [show attempt + 1 + j = attempt + (j + 1) from by omega]
          exact hf (j + 1) (by omega))
        (by
          rw [show attempt + 1 + k = attempt + (k + 1) from by omega]
          exact hs)
        (by omega)
      show 1 + attemptCalls fails (attempt + 1) n = k + 1 + 1
      rw [hrec]
      omega

/-- Under the same failure window, the loop sleeps exactly once per failed
attempt: `k` times in all. -/
theorem attemptSleeps_of_fail_window (fails : Nat → Bool) :
    ∀ (k attempt remaining : Nat),
      (∀ j, j < k → fails (attempt + j) = true) →
      fails (attempt + k) = false → k ≤ remaining →
      attemptSleeps fails attempt remaining = k := by
  intro k
  induction k with
  | zero =>
    intro attempt remaining _ hs _
    simp only [Nat.add_zero] at hs
    rw [attemptSleeps.eq_def]
    simp [hs]
  | succ k ih =>
    intro attempt remaining hf hs hk
    have h0 : fails attempt = true := by simpa using hf 0 (Nat.succ_pos k)
    rw [attemptSleeps.eq_def]
    simp only [h0, if_true]
    cases remaining with
    | zero => omega
    | succ n =>
      have hrec := ih (attempt + 1) n
        (fun j hj => by
          rw [show attempt + 1 + j = attempt + (j + 1) from by omega]
          exact hf (j + 1) (by omega))
        (by
          rw [show attempt + 1 + k = attempt + (k + 1) from by omega]
          exact hs)
        (by omega)
      show 1 + attemptSleeps fails (attempt + 1) n = k + 1
      rw [hrec]
      omega

/-- C4: a batch whose processing function fails on exactly `k` attempts with
`1 ≤ k ≤ max_retries` and then succeeds is given exactly `k + 1` process
invocations (at most `max_retries + 1`), sleeps the constant retry delay `k`
times (once between consecutive failed attempts), is counted as successful —
not failed — and increments `retried_batches` by exactly 1. -/
theorem retry_then_success (fails : Nat → Bool) (batchLen max_retries k : Nat)
    (r : BatchResults) (hk1 : 1 ≤ k) (hk2 : k ≤ max_retries)
    (hf : ∀ j, j < k → fails j = true) (hs : fails k = false) :
    attemptCalls fails 0 max_retries = k + 1 ∧
    attemptCalls fails 0 max_retries ≤ max_retries + 1 ∧
    attemptSleeps fails 0 max_retries = k ∧
    attemptLoop fails batchLen 0 max_retries r =
      { r with
          successful_batches := r.successful_batches + 1
          total_records := r.total_records + batchLen
          retried_batches := r.retried_batches + 1 } := by
  have hf' : ∀ j, j < k → fails (0 + j) = true := by
    intro j hj
    simpa using hf j hj
  have hs' : fails (0 + k) = false := by simpa using hs
  have hfs := firstSuccess_of_fail_window fails k 0 max_retries hf' hs' hk2
  have hcalls := attemptCalls_of_fail_window fails k 0 max_retries hf' hs' hk2
  have hsleeps := attemptSleeps_of_fail_window fails k 0 max_retries hf' hs' hk2
  refine ⟨hcalls, by omega, hsleeps, ?_⟩
  rw [attemptLoop_eq, hfs]
  simp [show (0 : Nat) < 0 + k from by omega]
  omega

/-- Witness: one failure then success within a budget of two retries. -/
theorem retry_then_success_witness :
    attemptCalls (fun a => decide (a = 0)) 0 2 = 1 + 1 ∧
    attemptCalls (fun a => decide (a = 0)) 0 2 ≤ 2 + 1 ∧
    attemptSleeps (fun a => decide (a = 0)) 0 2 = 1 ∧
    attemptLoop (fun a => decide (a = 0)) 5 0 2 initResults =
      { initResults with
          successful_batches := initResults.successful_batches + 1
          total_records := initResults.total_records + 5
          retried_batches := initResults.retried_batches + 1 } :=
  retry_then_success (fun a => decide (a = 0)) 5 2 1 initResults
    (by decide) (by decide) (by decide) (by decide)

/-! ## Claim C5 -/

/-- Three-way partition by a pair of Boolean tests: the first class, the
second class among the rest, and the remainder exhaust the list. -/
theorem countP_three_way (p q : α → Bool) :
    ∀ l : List α,
      l.countP p + l.countP (fun a => !p a && q a) +
        l.countP (fun a => !p a && !q a) = l.length := by
  intro l
  induction l with
  | nil => simp
  | cons a l ih =>
    simp only [List.countP_cons, List.length_cons]
    by_cases hp : p a <;> by_cases hq : q a <;> simp [hp, hq] <;> omega

/-- Loop invariant of `validate_batch`: the fold leaves `total_records`
untouched and bumps each classification counter once per record of the
corresponding class. -/
theorem validate_foldl_counts (rules : List (ValidationRule V)) :
    ∀ (records : List (List (String × V))) (s : BatchValidationSummary V),
      (records.foldl (validateStep rules) s).total_records = s.total_records ∧
      (records.foldl (validateStep rules) s).records_with_errors =
        s.records_with_errors +
          records.countP (fun record => hasErrors (validate_record rules record)) ∧
      (records.foldl (validateStep rules) s).records_with_warnings =
        s.records_with_warnings +
          records.countP (fun record =>
            !hasErrors (validate_record rules record) &&
              hasWarnings (validate_record rules record)) ∧
      (records.foldl (validateStep rules) s).valid_records =
        s.valid_records +
          records.countP (fun record =>
            !hasErrors (validate_record rules record) &&
              !hasWarnings (validate_record rules record)) := by
  intro records
  induction records with
  | nil => intro s; simp
  | cons record records ih =>
    intro s
    obtain ⟨h1, h2, h3, h4⟩ := ih (validateStep rules s record)
    simp only [List.foldl_cons, List.countP_cons, h1, h2, h3, h4]
    by_cases he : hasErrors (validate_record rules record) <;>
      by_cases hw : hasWarnings (validate_record rules record) <;>
      simp [validateStep, he, hw] <;> omega

/-- C5: `validate_batch` classifies every record into exactly one of three
disjoint classes — with errors when some ERROR-severity result for it is
invalid, with warnings when it has no such error but some invalid
WARNING-severity result, valid otherwise — and
`valid_records + records_with_errors + records_with_warnings = total_records`
with `total_records` the number of records. -/
theorem validate_batch_classification (rules : List (ValidationRule V))
    (records : List (List (String × V))) :
    (validate_batch rules records).valid_records +
      (validate_batch rules records).records_with_errors +
      (validate_batch rules records).records_with_warnings =
      (validate_batch rules records).total_records ∧
    (validate_batch rules records).total_records = records.length ∧
    (validate_batch rules records).records_with_errors =
      records.countP (fun record => hasErrors (validate_record rules record)) ∧
    (validate_batch rules records).records_with_warnings =
      records.countP (fun record =>
        !hasErrors (validate_record rules record) &&
          hasWarnings (validate_record rules record)) ∧
    (validate_batch rules records).valid_records =
      records.countP (fun record =>
        !hasErrors (validate_record rules record) &&
          !hasWarnings (validate_record rules record)) := by
  obtain ⟨h1, h2, h3, h4⟩ := validate_foldl_counts rules records
    { total_records := records.length, valid_records := 0
      records_with_errors := 0, records_with_warnings := 0
      validation_results := [] }
  have hpart := countP_three_way
    (fun record => hasErrors (validate_record rules record))
    (fun record => hasWarnings (validate_record rules record)) records
  refine ⟨?_, ?_, ?_, ?_, ?_⟩ <;>
    simp only [validate_batch, h1, h2, h3, h4] <;> omega

/-! ## Claim C6 -/

/-- `validate_record` returns exactly one result per registered rule. -/
theorem validate_record_length (rules : List (ValidationRule V))
    (record : List (String × V)) :
    (validate_record rules record).length = rules.length := by
  simp [validate_record]

/-- C6: `validate_record` yields exactly one result per registered rule and
never propagates a predicate's exception: whenever the `i`-th rule's
predicate raises on the record's field value (`none` when the field is
missing), the `i`-th result is invalid, has severity ERROR, and carries a
message embedding the exception's message. -/
theorem validate_record_catches_exceptions (rules : List (ValidationRule V))
    (record : List (String × V)) :
    (validate_record rules record).length = rules.length ∧
    ∀ (i : Nat) (h : i < rules.length) (e : String),
      (rules.get ⟨i, h⟩).rule_func (recordGet record (rules.get ⟨i, h⟩).field) =
        Except.error e →
      (validate_record rules record).get
          ⟨i, by rw [validate_record_length]; exact h⟩ =
        { field := (rules.get ⟨i, h⟩).field
          value := recordGet record (rules.get ⟨i, h⟩).field
          is_valid := false
          severity := Severity.error
          message := "Validation error: " ++ e
          rule_name := (rules.get ⟨i, h⟩).name } := by
  refine ⟨validate_record_length rules record, ?_⟩
  intro i h e herr
  simp only [List.get_eq_getElem] at herr ⊢
  simp only [validate_record, List.getElem_map]
  simp [evalRule, herr]

/-- Witness: a single always-raising rule applied to a record missing the
rule's field produces exactly one result, and that result is the converted
ERROR even though the rule was registered with severity WARNING. -/
theorem validate_record_catches_exceptions_witness :
    (validate_record [boomRule] ([] : List (String × Nat))).length =
      [boomRule].length ∧
    (validate_record [boomRule] ([] : List (String × Nat))).get ⟨0, by decide⟩ =
      { field := "age", value := none, is_valid := false
        severity := Severity.error, message := "Validation error: " ++ "boom"
        rule_name := "boom_rule" } := by
  refine ⟨(validate_record_catches_exceptions [boomRule] ([] : List (String × Nat))).1, ?_⟩
  have h := (validate_record_catches_exceptions [boomRule]
    ([] : List (String × Nat))).2 0 (by decide) "boom" rfl
  exact h

/-! ## Claim C1 -/

/-- C1 (code bug): a dry-run `safe_run` of a transformer whose `run()`
inserts one record persists the insert — the `patients` count rises from 0 to
1 even though `run()` returned normally under `dry_run=True` — because the
dry-run branch executes `run()` with no transaction at all (autocommit), so
nothing undoes the write, contradicting the code's own log line
"Dry run mode: no data will be saved.". -/
theorem dry_run_persists_writes :
    emptyStorage "patients" = 0 ∧
    (safe_run insertOnePatient true [] emptyStorage).1 = PyResult.ok () ∧
    (safe_run insertOnePatient true [] emptyStorage).2.1 "patients" = 1 :=
  ⟨rfl, rfl, rfl⟩

/-! ## Claim C7 -/

/-- C7 (code bug at the unknown-strategy half): rolling back with a `runId`
that has no snapshot does raise the not-found `ValueError` to the caller, as
the claim says; but rolling back an existing snapshot with an unknown
strategy name never surfaces the configuration `ValueError` — the blanket
`except Exception` swallows it and its handler crashes with `AttributeError`
because `self.logger` is `None`; were a logger attached, the call would
return `False`, still reporting no configuration error. -/
theorem rollback_unknown_strategy_mishandled :
    rollback_migration none [] "m1" "restore_backup" =
      Except.error (PyExc.valueError ("No snapshot found for migration " ++ "m1")) ∧
    rollback_migration none [demoSnapshot] "m1" "bogus_strategy" =
      Except.error PyExc.attributeError ∧
    rollback_migration (some ()) [demoSnapshot] "m1" "bogus_strategy" =
      Except.ok (some false) :=
  ⟨rfl, rfl, rfl⟩

/-! ## Claim C8 -/

/-- C8 counterexample: two successive `bulk_create_with_logging` calls — the
first creating two instances, the second creating one — leave
`stats["created"]` at 1 where it was 2: the second call's assignment
decreases the counter during execution. -/
theorem stats_created_decreases :
    (bulk_create_with_logging (fun _ => false) ([5] : List Nat) 10
        (bulk_create_with_logging (fun _ => false) ([5, 6] : List Nat) 10
          freshStats).2).2 "created" <
      (bulk_create_with_logging (fun _ => false) ([5, 6] : List Nat) 10
        freshStats).2 "created" := by decide

/-- C8 amended: counters touched by `get_or_create_with_logging` never
decrease, and batch processing does not write `stats` at all; but
`extract_data` and `bulk_create_with_logging` overwrite exactly the keys
`total_extracted` and `created` with freshly computed values — every other
key is left unchanged — so those two keys can decrease across repeated
calls. -/
theorem stats_monotonicity_amended :
    (∀ (created : Bool) (stats : Stats) (k : String),
        stats k ≤ get_or_create_stats created stats k) ∧
    (∀ (total_count : Nat) (stats : Stats) (k : String),
        k ≠ "total_extracted" →
        extract_data_stats total_count stats k = stats k) ∧
    (∀ (bulkFails : Nat → Bool) (instances : List Nat) (batch_size : Nat)
        (stats : Stats) (k : String), k ≠ "created" →
        (bulk_create_with_logging bulkFails instances batch_size stats).2 k =
          stats k) := by
  refine ⟨?_, ?_, ?_⟩
  · intro created stats k
    cases created
    · simp only [get_or_create_stats, Bool.false_eq_true, if_false, setStat]
      by_cases hk : k = "existing" <;> simp [hk]
    · simp only [get_or_create_stats, if_true, setStat]
      by_cases hk : k = "created" <;> simp [hk]
  · intro total_count stats k hk
    simp [extract_data_stats, setStat, hk]
  · intro bulkFails instances batch_size stats k hk
    by_cases hi : instances.isEmpty <;>
      simp [bulk_create_with_logging, hi, setStat, hk]

/-- Witness: a concrete non-assigned key is preserved by each operation and a
get-or-create never lowers a counter. -/
theorem stats_monotonicity_amended_witness :
    freshStats "existing" ≤ get_or_create_stats false freshStats "existing" ∧
    extract_data_stats 5 freshStats "created" = freshStats "created" ∧
    (bulk_create_with_logging (fun _ => false) ([5] : List Nat) 10
        freshStats).2 "existing" = freshStats "existing" :=
  ⟨stats_monotonicity_amended.1 false freshStats "existing",
   stats_monotonicity_amended.2.1 5 freshStats "created" (by decide),
   stats_monotonicity_amended.2.2 (fun _ => false) [5] 10 freshStats "existing"
     (by decide)⟩

/-! ## Claim C9 -/

/-- C9: each entry into `profile_operation` appends exactly one sample to the
entered operation's metrics list — on normal completion and on a raised
exception alike — leaves every other operation's list untouched, and passes
the body's outcome through unchanged (exceptions propagate, they are not
swallowed). -/
theorem profile_operation_one_sample (operation_name : String)
    (start_time start_memory : Int)
    (body : ProfilerState → PyResult α × ProfilerState × Int × Int)
    (prof : ProfilerState) :
    ((profile_operation operation_name start_time start_memory body
        prof).2.metrics operation_name).length =
      ((body prof).2.1.metrics operation_name).length + 1 ∧
    (∀ k, k ≠ operation_name →
      (profile_operation operation_name start_time start_memory body
          prof).2.metrics k = (body prof).2.1.metrics k) ∧
    (profile_operation operation_name start_time start_memory body prof).1 =
      (body prof).1 := by
  refine ⟨?_, ?_, ?_⟩
  · simp [profile_operation]
  · intro k hk
    simp [profile_operation, hk]
  · simp [profile_operation]

/-- Witness: a body that raises still records exactly one sample under its
own operation name, no sample under any other name, and the exception is
passed through. -/
theorem profile_operation_one_sample_witness :
    ((profile_operation "total_migration" 3 100
        (fun p => ((PyResult.raised "boom" : PyResult Unit), p, 7, 140))
        { metrics := fun _ => [] }).2.metrics "total_migration").length = 1 ∧
    (profile_operation "total_migration" 3 100
        (fun p => ((PyResult.raised "boom" : PyResult Unit), p, 7, 140))
        { metrics := fun _ => [] }).2.metrics "batch_validation" = [] ∧
    (profile_operation "total_migration" 3 100
        (fun p => ((PyResult.raised "boom" : PyResult Unit), p, 7, 140))
        { metrics := fun _ => [] }).1 = PyResult.raised "boom" := by
  have h := profile_operation_one_sample "total_migration" 3 100
    (fun p => ((PyResult.raised "boom" : PyResult Unit), p, 7, 140))
    { metrics := fun _ => [] }
  refine ⟨by simpa using h.1, ?_, h.2.2⟩
  have h2 := h.2.1 "batch_validation" (by decide)
  simpa using h2

/-! ## Claim C10 -/

/-- When no attempt in the budget succeeds, the retry loop performs exactly
one `log_error` call. -/
theorem attemptLogErrors_of_firstSuccess_none (fails : Nat → Bool) :
    ∀ (remaining attempt : Nat),
      firstSuccess fails attempt remaining = none →
      attemptLogErrors fails attempt remaining = 1 := by
  intro remaining
  induction remaining with
  | zero =>
    intro attempt h
    rw [firstSuccess.eq_def] at h
    rw [attemptLogErrors.eq_def]
    by_cases hf : fails attempt <;> simp [hf] at h ⊢
  | succ n ih =>
    intro attempt h
    rw [firstSuccess.eq_def] at h
    rw [attemptLogErrors.eq_def]
    by_cases hf : fails attempt <;> simp [hf] at h ⊢
    exact ih (attempt + 1) h

/-- C10: the migration summary's status is `completed` exactly when the
errors list is empty and `failed` otherwise; `log_error` appends to that
list; a batch that exhausts every retry performs exactly one `log_error`;
and `safe_run` returns the accumulated errors unchanged when `run()`
succeeds — so a transformer whose `safe_run` returned successfully is still
summarized as `failed` once any error was recorded during execution. -/
theorem migration_status_reflects_errors (errors : List String) (m : String)
    (fails : Nat → Bool) (max_retries : Nat)
    (hfail : firstSuccess fails 0 max_retries = none)
    (run : Storage → PyResult Unit × Storage) (st st1 : Storage)
    (hok : run st = (PyResult.ok (), st1)) :
    (migration_status errors = "completed" ↔ errors = []) ∧
    migration_status (log_error m errors) = "failed" ∧
    attemptLogErrors fails 0 max_retries = 1 ∧
    (safe_run run false errors st).2.2 = errors ∧
    (safe_run run true errors st).2.2 = errors := by
  have hne : (errors ++ [m]).isEmpty = false := by
    cases errors <;> rfl
  refine ⟨?_, ?_,
    attemptLogErrors_of_firstSuccess_none fails max_retries 0 hfail, ?_, ?_⟩
  · cases errors <;> simp [migration_status]
  · simp [migration_status, log_error, hne]
  · simp [safe_run, hok]
  · simp [safe_run, hok]

/-- Witness: with one recorded batch error, the summary says `failed` even
though `safe_run` succeeded and left the errors list as accumulated. -/
theorem migration_status_reflects_errors_witness :
    (migration_status ["batch failed"] = "completed" ↔
      ["batch failed"] = ([] : List String)) ∧
    migration_status (log_error "x" ["batch failed"]) = "failed" ∧
    attemptLogErrors (fun _ => true) 0 0 = 1 ∧
    (safe_run noopRun false ["batch failed"] emptyStorage).2.2 =
      ["batch failed"] ∧
    (safe_run noopRun true ["batch failed"] emptyStorage).2.2 =
      ["batch failed"] :=
  migration_status_reflects_errors ["batch failed"] "x" (fun _ => true) 0 rfl
    noopRun emptyStorage emptyStorage rfl
